import Mathlib

/-!
Shallow embedding of the ENV III unit driver (`src/unit_env_iii.c`, the
2023 version whose line numbers the claims cite) for the Core2 for AWS kit.
The driver wraps an SHT3x temperature/humidity sensor; machine integers are
modelled as `Nat` with explicit truncation (`% 256`, `% 2 ^ 16`, `% 2 ^ 64`)
where the C types overflow.  External collaborators (the I2C transport, the
esp timer) are passed in as explicit arguments; observable effects that the
C performs through pointers or logging (transport reads, ESP_LOGE messages,
out-parameter writes) are recorded in the returned outcome records.
-/

/-- ESP_OK, the esp-idf success code (0). -/
def ESP_OK : Nat := 0

/-- ESP_ERR_INVALID_STATE, the esp-idf code 0x103. -/
def ESP_ERR_INVALID_STATE : Nat := 0x103

/-- ESP_ERR_INVALID_CRC, the esp-idf code 0x109. -/
def ESP_ERR_INVALID_CRC : Nat := 0x109

/-- ESP_ERR_INVALID_ARG, the esp-idf code 0x102 (used as a concrete sample
transport failure code in witnesses). -/
def ESP_ERR_INVALID_ARG : Nat := 0x102

/-- Measurement mode of the SHT3x session.  Modelled from the spec data
model: mode is an enum distinguishing SingleShot from Periodic (the sht3x
header is not part of this repository). -/
inductive sht3x_mode where
  | single_shot : sht3x_mode
  | periodic : sht3x_mode
deriving DecidableEq

/-- Repeatability setting of the SHT3x sensor: High, Medium or Low. -/
inductive sht3x_repeat where
  | high : sht3x_repeat
  | medium : sht3x_repeat
  | low : sht3x_repeat
deriving DecidableEq

/-- REPEATABILITY_MODE, the compile-time macro fixed to SHT3X_HIGH in
`src/unit_env_iii.c`. -/
def REPEATABILITY_MODE : sht3x_repeat := sht3x_repeat.high

/-- SHT3X_FETCH_DATA_CMD = 0xE000 (`src/unit_env_iii.c`). -/
def SHT3X_FETCH_DATA_CMD : Nat := 0xE000

/-- SHT3X_MEAS_DURATION_REP_HIGH = 15 (`src/unit_env_iii.c`). -/
def SHT3X_MEAS_DURATION_REP_HIGH : Nat := 15

/-- SHT3X_MEAS_DURATION_REP_MEDIUM = 6 (`src/unit_env_iii.c`). -/
def SHT3X_MEAS_DURATION_REP_MEDIUM : Nat := 6

/-- SHT3X_MEAS_DURATION_REP_LOW = 4 (`src/unit_env_iii.c`). -/
def SHT3X_MEAS_DURATION_REP_LOW : Nat := 4

/-- G_POLYNOM = 0x31, the CRC polynomial (`src/unit_env_iii.c`). -/
def G_POLYNOM : Nat := 0x31

/-- The static table SHT3X_MEAS_DURATION_US, measurement durations in
microseconds indexed by repeatability (`src/unit_env_iii.c`). -/
def SHT3X_MEAS_DURATION_US : sht3x_repeat → Nat
  | sht3x_repeat.high => SHT3X_MEAS_DURATION_REP_HIGH * 1000
  | sht3x_repeat.medium => SHT3X_MEAS_DURATION_REP_MEDIUM * 1000
  | sht3x_repeat.low => SHT3X_MEAS_DURATION_REP_LOW * 1000

/-- The measurement-related fields of the sht3x session state `_dev`
(struct sht3x_t).  The i2c descriptor fields are abstracted into the
transport arguments of the operations. -/
structure sht3x_t where
  mode : sht3x_mode
  repeatability : sht3x_repeat
  meas_started : Bool
  meas_first : Bool
  meas_start_time : Nat
deriving DecidableEq

/-- The function shuffle from `src/unit_env_iii.c`:
`(val >> 8) | (val << 8)` on a uint16_t value, truncated back to 16 bits
on return. -/
def shuffle (val : Nat) : Nat :=
  ((val >>> 8) ||| (val <<< 8)) % 2 ^ 16

/-- One iteration of the inner bit loop of crc8 in `src/unit_env_iii.c`:
record the pre-shift MSB, shift the 8-bit register left (truncating), and
XOR with G_POLYNOM when the recorded bit was set. -/
def crc8_step (crc : Nat) : Nat :=
  let msb := crc &&& 0x80 ≠ 0
  let crc2 := (crc <<< 1) % 256
  if msb then crc2 ^^^ G_POLYNOM else crc2

/-- The inner loop of crc8, iterated n times (n = 8 in the source). -/
def crc8_bits : Nat → Nat → Nat
  | 0, crc => crc
  | n + 1, crc => crc8_bits n (crc8_step crc)

/-- The function crc8 from `src/unit_env_iii.c`: register initialised to
0xFF; each byte is XORed into the register and the bit loop runs 8 times. -/
def crc8 (data : List Nat) : Nat :=
  data.foldl (fun crc b => crc8_bits 8 (crc ^^^ b)) 0xff

/-- Reference CRC-8, written from the specification text: initialise the
register to 0xFF; for each byte XOR it into the register, then 8 times
shift the register left by 1 (as an 8-bit register) and XOR with 0x31 when
the pre-shift most-significant bit was set; the final register is the
checksum. -/
def crc8_spec_step (crc : Nat) : Nat :=
  if Nat.testBit crc 7 then (crc * 2) % 256 ^^^ 0x31 else (crc * 2) % 256

/-- The 8 shift-and-conditionally-XOR rounds of the reference CRC-8. -/
def crc8_spec_bits : Nat → Nat → Nat
  | 0, crc => crc
  | n + 1, crc => crc8_spec_bits n (crc8_spec_step crc)

/-- The reference CRC-8 over a byte sequence, from the specification. -/
def crc8_spec (data : List Nat) : Nat :=
  data.foldl (fun crc b => crc8_spec_bits 8 (crc ^^^ b)) 0xff

/-- Wrapping uint64 subtraction, as in the C expression
`esp_timer_get_time() - dev->meas_start_time` over uint64_t. -/
def u64_sub (a b : Nat) : Nat :=
  (a + (2 ^ 64 - b % 2 ^ 64)) % 2 ^ 64

/-- The function is_measuring from `src/unit_env_iii.c`: false when the
measurement is not started at all or is not the first measurement; else
true exactly when the elapsed time since meas_start_time is below the
duration-table entry for the repeatability. -/
def is_measuring (dev : sht3x_t) (now : Nat) : Bool :=
  if !dev.meas_started || !dev.meas_first then false
  else decide (u64_sub now dev.meas_start_time < SHT3X_MEAS_DURATION_US dev.repeatability)

/-- The distinct ESP_LOGE diagnostics emitted on the failure branches of
unit_enviii_temp_humidity_get in `src/unit_env_iii.c`. -/
inductive LogMsg where
  | notStarted : LogMsg
  | stillMeasuring : LogMsg
  | crcTempFailed : LogMsg
  | crcHumFailed : LogMsg
deriving DecidableEq

/-- Modelled from the spec: sht3x_compute_values (from the external sht3x
driver, absent from src/) converts the raw 6-byte frame by the documented
linear transfer functions, temperature = -45 + 175 * rawTemp / 65535 and
humidity = 100 * rawHum / 65535, with the raw words taken big-endian from
bytes 0,1 and 3,4. -/
def sht3x_compute_values (raw : List Nat) : Rat × Rat :=
  let rawTemp : Rat := (raw.getD 0 0 * 256 + raw.getD 1 0 : Nat)
  let rawHum : Rat := (raw.getD 3 0 * 256 + raw.getD 4 0 : Nat)
  (-45 + 175 * rawTemp / 65535, 100 * rawHum / 65535)

/-- Observable outcome of one unit_enviii_temp_humidity_get call: the
returned esp_err_t, the session state afterwards, the command word handed
to the transport (none when no i2c_dev_read was issued), which CRC
checks were computed, the values written through the out-parameters (none
when the call returned before writing them), and the error diagnostics
logged. -/
structure FetchOutcome where
  err : Nat
  dev : sht3x_t
  cmdSent : Option Nat
  tempCrcChecked : Bool
  humCrcChecked : Bool
  outputs : Option (Rat × Rat)
  log : List LogMsg
deriving DecidableEq

/-- The function unit_enviii_temp_humidity_get from `src/unit_env_iii.c`.
Arguments beyond the session state: `now` is the esp_timer_get_time value
read inside is_measuring; `read_err` is the esp_err_t that the
i2c_dev_read transport call would return, and `raw` the 6 bytes it would
deposit in raw_data on success.  The body follows the C line by line:
meas_started guard, is_measuring guard, transport read of the shuffled
fetch command (the CHECK macro returns read_err when it is not ESP_OK),
reset of meas_first and, in single-shot mode, of meas_started, then the
temperature CRC check over bytes 0-1 against byte 2, the humidity CRC
check over bytes 3-4 against byte 5, and finally sht3x_compute_values. -/
def unit_enviii_temp_humidity_get (dev : sht3x_t) (now : Nat)
    (read_err : Nat) (raw : List Nat) : FetchOutcome :=
  if !dev.meas_started then
    { err := ESP_ERR_INVALID_STATE, dev := dev, cmdSent := none,
      tempCrcChecked := false, humCrcChecked := false, outputs := none,
      log := [LogMsg.notStarted] }
  else if is_measuring dev now then
    { err := ESP_ERR_INVALID_STATE, dev := dev, cmdSent := none,
      tempCrcChecked := false, humCrcChecked := false, outputs := none,
      log := [LogMsg.stillMeasuring] }
  else
    let cmd := shuffle SHT3X_FETCH_DATA_CMD
    if read_err ≠ ESP_OK then
      { err := read_err, dev := dev, cmdSent := some cmd,
        tempCrcChecked := false, humCrcChecked := false, outputs := none,
        log := [] }
    else
      let dev1 : sht3x_t := { dev with meas_first := false }
      let dev2 : sht3x_t :=
        if dev1.mode = sht3x_mode.single_shot then
          { dev1 with meas_started := false }
        else dev1
      if crc8 (raw.take 2) ≠ raw.getD 2 0 then
        { err := ESP_ERR_INVALID_CRC, dev := dev2, cmdSent := some cmd,
          tempCrcChecked := true, humCrcChecked := false, outputs := none,
          log := [LogMsg.crcTempFailed] }
      else if crc8 ((raw.drop 3).take 2) ≠ raw.getD 5 0 then
        { err := ESP_ERR_INVALID_CRC, dev := dev2, cmdSent := some cmd,
          tempCrcChecked := true, humCrcChecked := true, outputs := none,
          log := [LogMsg.crcHumFailed] }
      else
        { err := ESP_OK, dev := dev2, cmdSent := some cmd,
          tempCrcChecked := true, humCrcChecked := true,
          outputs := some (sht3x_compute_values raw), log := [] }

/-- Modelled from the spec: sht3x_start_measurement (external sht3x driver,
absent from src/) issues the start command in the given mode and
repeatability; on transport success it sets meas_started and meas_first
and records meas_start_time = now; on failure it returns the transport
error with the state unchanged. -/
def sht3x_start_measurement (dev : sht3x_t) (now : Nat)
    (mode : sht3x_mode) (rep : sht3x_repeat) (cmd_err : Nat) :
    Nat × sht3x_t :=
  if cmd_err ≠ ESP_OK then (cmd_err, dev)
  else
    (ESP_OK,
      { dev with mode := mode, repeatability := rep,
                 meas_started := true, meas_first := true,
                 meas_start_time := now })

/-- The function unit_enviii_temp_humidity_measure from
`src/unit_env_iii.c`: starts a single-shot measurement with the
REPEATABILITY_MODE repeatability. -/
def unit_enviii_temp_humidity_measure (dev : sht3x_t) (now : Nat)
    (cmd_err : Nat) : Nat × sht3x_t :=
  sht3x_start_measurement dev now sht3x_mode.single_shot REPEATABILITY_MODE cmd_err

/-- Modelled from the spec: sht3x_get_measurement_duration (external sht3x
driver, absent from src/) is a pure table lookup returning 15 ticks for
High, 6 for Medium and 4 for Low repeatability. -/
def sht3x_get_measurement_duration : sht3x_repeat → Nat
  | sht3x_repeat.high => SHT3X_MEAS_DURATION_REP_HIGH
  | sht3x_repeat.medium => SHT3X_MEAS_DURATION_REP_MEDIUM
  | sht3x_repeat.low => SHT3X_MEAS_DURATION_REP_LOW

/-- The function unit_enviii_duration_get from `src/unit_env_iii.c`,
parameterised by the value of the REPEATABILITY_MODE macro: it writes
sht3x_get_measurement_duration of that mode through the out-parameter and
returns ESP_OK.  The global session `_dev` is neither read nor written, so
it is threaded through unchanged.  Result: (esp_err_t, written duration,
session state after the call). -/
def unit_enviii_duration_get (repeatability_mode : sht3x_repeat)
    (dev : sht3x_t) : Nat × Nat × sht3x_t :=
  (ESP_OK, sht3x_get_measurement_duration repeatability_mode, dev)

/-- Outcome of unit_enviii_init: either the process aborts inside
ESP_ERROR_CHECK carrying the failing esp_err_t, or the function returns an
esp_err_t together with the duration written through duration_to_wait and
the resulting session state. -/
inductive InitOutcome where
  | abort : Nat → InitOutcome
  | ret : Nat → Nat → sht3x_t → InitOutcome
deriving DecidableEq

/-- True exactly when the init call returned (did not abort). -/
def InitOutcome.isReturn : InitOutcome → Bool
  | InitOutcome.abort _ => false
  | InitOutcome.ret _ _ _ => true

/-- The zeroed session state produced by `memset(&_dev, 0, ...)`: all
flags false, timestamp 0, and the all-zero enum encodings (single-shot
mode, high repeatability, which are the 0 values of the sht3x enums). -/
def zeroed_dev : sht3x_t :=
  { mode := sht3x_mode.single_shot, repeatability := sht3x_repeat.high,
    meas_started := false, meas_first := false, meas_start_time := 0 }

/-- The function unit_enviii_init from `src/unit_env_iii.c`: zeroes the
session, then wraps sht3x_init_desc and sht3x_init in ESP_ERROR_CHECK —
the esp-idf macro that aborts the program when its argument is not ESP_OK
(it never returns the error) — and finally returns
unit_enviii_duration_get through duration_to_wait.  `desc_err` and
`init_err` are the esp_err_t results of the two external sht3x calls
(their bodies are not part of this repository; neither touches the
measurement bookkeeping fields on the paths modelled here). -/
def unit_enviii_init (desc_err init_err : Nat) : InitOutcome :=
  if desc_err ≠ ESP_OK then InitOutcome.abort desc_err
  else if init_err ≠ ESP_OK then InitOutcome.abort init_err
  else
    let r := unit_enviii_duration_get REPEATABILITY_MODE zeroed_dev
    InitOutcome.ret r.1 r.2.1 r.2.2

/-- Observable outcome of the QMP6988 stub calls: returned esp_err_t, the
session state afterwards, how many bus transactions were performed, and
whether anything was written through the float out-parameter. -/
structure StubOutcome where
  err : Nat
  dev : sht3x_t
  busTransactions : Nat
  wroteOutput : Bool
deriving DecidableEq

/-- The function _unit_enviii_qmp6988_get from `src/unit_env_iii.c`: its
body is just `return ESP_OK;` — no transport access, no state change, no
write through either pointer. -/
def _unit_enviii_qmp6988_get (dev : sht3x_t) : StubOutcome :=
  { err := ESP_OK, dev := dev, busTransactions := 0, wroteOutput := false }

/-- The function unit_enviii_pressure_get from `src/unit_env_iii.c`:
forwards to _unit_enviii_qmp6988_get with a local zero temperature. -/
def unit_enviii_pressure_get (dev : sht3x_t) : StubOutcome :=
  _unit_enviii_qmp6988_get dev

/-- The function unit_enviii_altitude_get from `src/unit_env_iii.c`: its
body is just `return ESP_OK;`. -/
def unit_enviii_altitude_get (dev : sht3x_t) : StubOutcome :=
  { err := ESP_OK, dev := dev, busTransactions := 0, wroteOutput := false }

example : crc8 [0x00, 0x00] = 0x81 := by decide
example : shuffle 0xE000 = 0xE0 := by decide
example : crc8 [0xBE, 0xEF] = 0x92 := by decide

/-! Helper lemmas shared by the claim theorems. -/

lemma crc8_step_eq (crc : Nat) : crc8_step crc = crc8_spec_step crc := by
  unfold crc8_step crc8_spec_step G_POLYNOM
  have hb : (crc &&& 0x80 ≠ 0) ↔ Nat.testBit crc 7 = true := by
    rw [show (0x80 : Nat) = 2 ^ 7 by norm_num, Nat.and_two_pow]
    cases h : Nat.testBit crc 7 <;> simp [h]
  by_cases h : Nat.testBit crc 7 = true
  · rw [if_pos (hb.mpr h), if_pos h, Nat.shiftLeft_eq]
  · rw [if_neg (fun hc => h (hb.mp hc)), if_neg h, Nat.shiftLeft_eq]

lemma crc8_bits_eq (n crc : Nat) : crc8_bits n crc = crc8_spec_bits n crc := by
  induction n generalizing crc with
  | zero => rfl
  | succ n ih => rw [crc8_bits, crc8_spec_bits, crc8_step_eq]; exact ih _

lemma shuffle_swap (v : Nat) (h : v < 2 ^ 16) :
    shuffle v = 256 * (v % 256) + v / 256 := by
  unfold shuffle
  rw [Nat.shiftLeft_eq, Nat.shiftRight_eq_div_pow, Nat.or_comm,
    show v * 2 ^ 8 = 2 ^ 8 * v by ring,
    ← Nat.mul_add_lt_is_or (by omega : v / 2 ^ 8 < 2 ^ 8) v]
  omega

lemma u64_sub_eq (a b : Nat) (hba : b ≤ a) (ha : a < 2 ^ 64) :
    u64_sub a b = a - b := by
  unfold u64_sub
  omega

lemma is_measuring_true (dev : sht3x_t) (now : Nat)
    (hs : dev.meas_started = true) (hf : dev.meas_first = true)
    (hba : dev.meas_start_time ≤ now) (ha : now < 2 ^ 64)
    (hlt : now - dev.meas_start_time < SHT3X_MEAS_DURATION_US dev.repeatability) :
    is_measuring dev now = true := by
  unfold is_measuring
  rw [hs, hf, u64_sub_eq now dev.meas_start_time hba ha]
  simp [hlt]

lemma is_measuring_false_of_not_first (dev : sht3x_t) (now : Nat)
    (hf : dev.meas_first = false) : is_measuring dev now = false := by
  unfold is_measuring
  rw [hf]
  simp

lemma fetch_not_started (dev : sht3x_t) (now e : Nat) (raw : List Nat)
    (h : dev.meas_started = false) :
    unit_enviii_temp_humidity_get dev now e raw =
      { err := ESP_ERR_INVALID_STATE, dev := dev, cmdSent := none,
        tempCrcChecked := false, humCrcChecked := false, outputs := none,
        log := [LogMsg.notStarted] } := by
  unfold unit_enviii_temp_humidity_get
  rw [h]
  simp

lemma fetch_still_measuring (dev : sht3x_t) (now e : Nat) (raw : List Nat)
    (hs : dev.meas_started = true) (hm : is_measuring dev now = true) :
    unit_enviii_temp_humidity_get dev now e raw =
      { err := ESP_ERR_INVALID_STATE, dev := dev, cmdSent := none,
        tempCrcChecked := false, humCrcChecked := false, outputs := none,
        log := [LogMsg.stillMeasuring] } := by
  unfold unit_enviii_temp_humidity_get
  rw [hs, hm]
  simp

lemma fetch_cmd_sent (dev : sht3x_t) (now e : Nat) (raw : List Nat)
    (hs : dev.meas_started = true) (hm : is_measuring dev now = false) :
    (unit_enviii_temp_humidity_get dev now e raw).cmdSent =
      some (shuffle SHT3X_FETCH_DATA_CMD) := by
  unfold unit_enviii_temp_humidity_get
  rw [hs, hm]
  simp only [Bool.not_true, Bool.false_eq_true, if_false]
  split_ifs <;> simp

lemma fetch_read_ok_clears_flags (dev : sht3x_t) (now : Nat) (raw : List Nat)
    (hs : dev.meas_started = true) (hm : is_measuring dev now = false) :
    (unit_enviii_temp_humidity_get dev now ESP_OK raw).dev.meas_first = false ∧
    (dev.mode = sht3x_mode.single_shot →
      (unit_enviii_temp_humidity_get dev now ESP_OK raw).dev.meas_started = false) := by
  unfold unit_enviii_temp_humidity_get
  rw [hs, hm]
  simp only [Bool.not_true, Bool.false_eq_true, if_false]
  by_cases hmode : dev.mode = sht3x_mode.single_shot <;>
    simp only [hmode, if_pos, if_neg, reduceIte] <;>
    split_ifs <;> simp_all

lemma fetch_err_ok_started_cleared (dev : sht3x_t) (now e : Nat) (raw : List Nat)
    (hmode : dev.mode = sht3x_mode.single_shot)
    (hok : (unit_enviii_temp_humidity_get dev now e raw).err = ESP_OK) :
    (unit_enviii_temp_humidity_get dev now e raw).dev.meas_started = false := by
  unfold unit_enviii_temp_humidity_get at hok ⊢
  rw [hmode] at hok ⊢
  split_ifs at hok ⊢ <;>
    simp_all [ESP_ERR_INVALID_STATE, ESP_ERR_INVALID_CRC, ESP_OK]

lemma fetch_crc_temp_fail (dev : sht3x_t) (now : Nat) (raw : List Nat)
    (hs : dev.meas_started = true) (hm : is_measuring dev now = false)
    (hcrc : crc8 (raw.take 2) ≠ raw.getD 2 0) :
    unit_enviii_temp_humidity_get dev now ESP_OK raw =
      { err := ESP_ERR_INVALID_CRC,
        dev := { dev with
                  meas_first := false,
                  meas_started :=
                    if dev.mode = sht3x_mode.single_shot then false
                    else dev.meas_started },
        cmdSent := some (shuffle SHT3X_FETCH_DATA_CMD),
        tempCrcChecked := true, humCrcChecked := false, outputs := none,
        log := [LogMsg.crcTempFailed] } := by
  unfold unit_enviii_temp_humidity_get
  rw [hs, hm]
  simp only [Bool.not_true, Bool.false_eq_true, if_false]
  by_cases hmode : dev.mode = sht3x_mode.single_shot <;>
    simp_all

lemma start_measure_state (dev : sht3x_t) (now : Nat) :
    (unit_enviii_temp_humidity_measure dev now ESP_OK).2 =
      { dev with mode := sht3x_mode.single_shot,
                 repeatability := REPEATABILITY_MODE,
                 meas_started := true, meas_first := true,
                 meas_start_time := now } := by
  unfold unit_enviii_temp_humidity_measure sht3x_start_measurement
  simp

/-! Claim theorems. -/

/-- Claim C1: whenever meas_started is false (in particular before any
start command), unit_enviii_temp_humidity_get fails with the NotStarted
diagnostic and ESP_ERR_INVALID_STATE, issues no transport read, writes
nothing through the out-parameters, and leaves the session unchanged. -/
theorem fetch_requires_started (dev : sht3x_t) (now e : Nat) (raw : List Nat)
    (h : dev.meas_started = false) :
    (unit_enviii_temp_humidity_get dev now e raw).err = ESP_ERR_INVALID_STATE ∧
    (unit_enviii_temp_humidity_get dev now e raw).log = [LogMsg.notStarted] ∧
    (unit_enviii_temp_humidity_get dev now e raw).cmdSent = none ∧
    (unit_enviii_temp_humidity_get dev now e raw).outputs = none ∧
    (unit_enviii_temp_humidity_get dev now e raw).dev = dev := by
  rw [fetch_not_started dev now e raw h]
  exact ⟨rfl, rfl, rfl, rfl, rfl⟩

/-- Witness for C1 at a concrete never-started session. -/
theorem fetch_requires_started_witness :
    (sht3x_t.mk sht3x_mode.single_shot sht3x_repeat.high false false
      0).meas_started = false ∧
    (unit_enviii_temp_humidity_get
      (sht3x_t.mk sht3x_mode.single_shot sht3x_repeat.high false false 0)
      0 ESP_OK []).err = ESP_ERR_INVALID_STATE :=
  ⟨rfl, (fetch_requires_started _ 0 ESP_OK [] rfl).1⟩

/-- Claim C2: a successful single-shot fetch clears meas_started, so after
one unit_enviii_temp_humidity_measure (single-shot start) and one
successful fetch, a second fetch with no intervening start fails with the
NotStarted diagnostic and ESP_ERR_INVALID_STATE. -/
theorem single_shot_second_fetch_fails (dev0 : sht3x_t)
    (t1 t2 t3 e2 e3 : Nat) (raw2 raw3 : List Nat)
    (hok : (unit_enviii_temp_humidity_get
      (unit_enviii_temp_humidity_measure dev0 t1 ESP_OK).2 t2 e2 raw2).err =
        ESP_OK) :
    (unit_enviii_temp_humidity_get
      (unit_enviii_temp_humidity_measure dev0 t1 ESP_OK).2 t2 e2
      raw2).dev.meas_started = false ∧
    (unit_enviii_temp_humidity_get
      (unit_enviii_temp_humidity_get
        (unit_enviii_temp_humidity_measure dev0 t1 ESP_OK).2 t2 e2 raw2).dev
      t3 e3 raw3).err = ESP_ERR_INVALID_STATE ∧
    (unit_enviii_temp_humidity_get
      (unit_enviii_temp_humidity_get
        (unit_enviii_temp_humidity_measure dev0 t1 ESP_OK).2 t2 e2 raw2).dev
      t3 e3 raw3).log = [LogMsg.notStarted] := by
  have hmode :
      (unit_enviii_temp_humidity_measure dev0 t1 ESP_OK).2.mode =
        sht3x_mode.single_shot := by
    rw [start_measure_state]
  have hcleared := fetch_err_ok_started_cleared
    (unit_enviii_temp_humidity_measure dev0 t1 ESP_OK).2 t2 e2 raw2 hmode hok
  refine ⟨hcleared, ?_, ?_⟩ <;>
    rw [fetch_not_started _ t3 e3 raw3 hcleared]

/-- Witness for C2: a concrete start at time 0 followed by a fetch at
20000 microseconds with a CRC-clean frame, then a second fetch. -/
theorem single_shot_second_fetch_fails_witness :
    (unit_enviii_temp_humidity_get
      (unit_enviii_temp_humidity_measure zeroed_dev 0 ESP_OK).2 20000 ESP_OK
      [0, 0, 0x81, 0, 0, 0x81]).err = ESP_OK ∧
    (unit_enviii_temp_humidity_get
      (unit_enviii_temp_humidity_get
        (unit_enviii_temp_humidity_measure zeroed_dev 0 ESP_OK).2 20000 ESP_OK
        [0, 0, 0x81, 0, 0, 0x81]).dev
      30000 ESP_OK [0, 0, 0x81, 0, 0, 0x81]).err = ESP_ERR_INVALID_STATE :=
  ⟨by decide,
    (single_shot_second_fetch_fails zeroed_dev 0 20000 30000 ESP_OK ESP_OK
      [0, 0, 0x81, 0, 0, 0x81] [0, 0, 0x81, 0, 0, 0x81] (by decide)).2.1⟩

/-- Claim C3: with meas_started and meas_first both true and the elapsed
time since meas_start_time strictly below the duration-table entry for the
repeatability (15000 microseconds for High), the fetch fails with the
StillMeasuring diagnostic and ESP_ERR_INVALID_STATE and performs no
transport read; and the elapsed check only fires when meas_first is true:
with meas_first false, is_measuring is false and the fetch proceeds to the
transport read. -/
theorem fetch_still_measuring_gate (dev : sht3x_t) (now e : Nat)
    (raw : List Nat)
    (hs : dev.meas_started = true) (hf : dev.meas_first = true)
    (hba : dev.meas_start_time ≤ now) (hnow : now < 2 ^ 64)
    (hlt : now - dev.meas_start_time <
      SHT3X_MEAS_DURATION_US dev.repeatability) :
    SHT3X_MEAS_DURATION_US sht3x_repeat.high = 15000 ∧
    (unit_enviii_temp_humidity_get dev now e raw).err = ESP_ERR_INVALID_STATE ∧
    (unit_enviii_temp_humidity_get dev now e raw).log = [LogMsg.stillMeasuring] ∧
    (unit_enviii_temp_humidity_get dev now e raw).cmdSent = none ∧
    (∀ (dev2 : sht3x_t) (now2 e2 : Nat) (raw2 : List Nat),
      dev2.meas_started = true → dev2.meas_first = false →
      is_measuring dev2 now2 = false ∧
      (unit_enviii_temp_humidity_get dev2 now2 e2 raw2).cmdSent =
        some (shuffle SHT3X_FETCH_DATA_CMD)) := by
  have hm := is_measuring_true dev now hs hf hba hnow hlt
  have heq := fetch_still_measuring dev now e raw hs hm
  refine ⟨rfl, ?_, ?_, ?_, ?_⟩
  · rw [heq]
  · rw [heq]
  · rw [heq]
  · intro dev2 now2 e2 raw2 hs2 hf2
    have hm2 := is_measuring_false_of_not_first dev2 now2 hf2
    exact ⟨hm2, fetch_cmd_sent dev2 now2 e2 raw2 hs2 hm2⟩

/-- Witness for C3 at a concrete session started at time 0 and fetched at
time 0 (elapsed 0 < 15000, repeatability High). -/
theorem fetch_still_measuring_gate_witness :
    (unit_enviii_temp_humidity_get
      (sht3x_t.mk sht3x_mode.single_shot sht3x_repeat.high true true 0)
      0 ESP_OK []).err = ESP_ERR_INVALID_STATE ∧
    (unit_enviii_temp_humidity_get
      (sht3x_t.mk sht3x_mode.single_shot sht3x_repeat.high true true 0)
      0 ESP_OK []).log = [LogMsg.stillMeasuring] :=
  ⟨(fetch_still_measuring_gate _ 0 ESP_OK [] rfl rfl (by decide) (by decide)
      (by decide)).2.1,
    (fetch_still_measuring_gate _ 0 ESP_OK [] rfl rfl (by decide) (by decide)
      (by decide)).2.2.1⟩

/-- Claim C4: the crc8 of the source equals the reference CRC-8 of the
specification (register 0xFF, XOR each byte in, 8 shift-left rounds with
conditional XOR of 0x31 on the pre-shift MSB) on every byte sequence, and
on the all-zero 2-byte payload it yields the datasheet checksum 0x81. -/
theorem crc8_matches_reference :
    (∀ data : List Nat, crc8 data = crc8_spec data) ∧
    crc8 [0x00, 0x00] = 0x81 := by
  constructor
  · intro data
    unfold crc8 crc8_spec
    simp only [crc8_bits_eq]
  · decide

/-- Claim C5: on a 6-byte response whose temperature CRC (over bytes 0-1,
against byte 2) mismatches, the fetch fails with ESP_ERR_INVALID_CRC and
the temperature diagnostic, the temperature check having run and the
humidity check never being performed, whatever bytes 3-5 contain. -/
theorem temp_crc_failure_short_circuits (dev : sht3x_t) (now : Nat)
    (raw : List Nat)
    (hs : dev.meas_started = true) (hm : is_measuring dev now = false)
    (_h6 : raw.length = 6)
    (hcrc : crc8 (raw.take 2) ≠ raw.getD 2 0) :
    (unit_enviii_temp_humidity_get dev now ESP_OK raw).err = ESP_ERR_INVALID_CRC ∧
    (unit_enviii_temp_humidity_get dev now ESP_OK raw).log = [LogMsg.crcTempFailed] ∧
    (unit_enviii_temp_humidity_get dev now ESP_OK raw).tempCrcChecked = true ∧
    (unit_enviii_temp_humidity_get dev now ESP_OK raw).humCrcChecked = false ∧
    (unit_enviii_temp_humidity_get dev now ESP_OK raw).outputs = none := by
  rw [fetch_crc_temp_fail dev now raw hs hm hcrc]
  exact ⟨rfl, rfl, rfl, rfl, rfl⟩

/-- Witness for C5: a corrupted frame whose humidity half is CRC-clean but
whose temperature CRC byte is wrong. -/
theorem temp_crc_failure_short_circuits_witness :
    (unit_enviii_temp_humidity_get
      (sht3x_t.mk sht3x_mode.single_shot sht3x_repeat.high true false 0)
      0 ESP_OK [0, 0, 0x80, 0, 0, 0x81]).err = ESP_ERR_INVALID_CRC ∧
    (unit_enviii_temp_humidity_get
      (sht3x_t.mk sht3x_mode.single_shot sht3x_repeat.high true false 0)
      0 ESP_OK [0, 0, 0x80, 0, 0, 0x81]).humCrcChecked = false :=
  ⟨(temp_crc_failure_short_circuits _ 0 [0, 0, 0x80, 0, 0, 0x81] rfl
      (by decide) (by decide) (by decide)).1,
    (temp_crc_failure_short_circuits _ 0 [0, 0, 0x80, 0, 0, 0x81] rfl
      (by decide) (by decide) (by decide)).2.2.2.1⟩

/-- Claim C6: once the preconditions pass and the transport read succeeds,
meas_first is cleared and, in single-shot mode, meas_started is cleared,
whether or not the CRC checks later fail; hence in single-shot mode the
fetch after an InvalidCrc failure fails with NotStarted instead of
retrying the read. -/
theorem fetch_consumes_measurement (dev : sht3x_t) (now : Nat)
    (raw : List Nat)
    (hs : dev.meas_started = true) (hm : is_measuring dev now = false) :
    (unit_enviii_temp_humidity_get dev now ESP_OK raw).dev.meas_first = false ∧
    (dev.mode = sht3x_mode.single_shot →
      (unit_enviii_temp_humidity_get dev now ESP_OK raw).dev.meas_started =
        false) ∧
    (∀ (now3 e3 : Nat) (raw3 : List Nat),
      dev.mode = sht3x_mode.single_shot →
      (unit_enviii_temp_humidity_get dev now ESP_OK raw).err =
        ESP_ERR_INVALID_CRC →
      (unit_enviii_temp_humidity_get
        (unit_enviii_temp_humidity_get dev now ESP_OK raw).dev
        now3 e3 raw3).err = ESP_ERR_INVALID_STATE ∧
      (unit_enviii_temp_humidity_get
        (unit_enviii_temp_humidity_get dev now ESP_OK raw).dev
        now3 e3 raw3).log = [LogMsg.notStarted] ∧
      (unit_enviii_temp_humidity_get
        (unit_enviii_temp_humidity_get dev now ESP_OK raw).dev
        now3 e3 raw3).cmdSent = none) := by
  obtain ⟨h1, h2⟩ := fetch_read_ok_clears_flags dev now raw hs hm
  refine ⟨h1, h2, ?_⟩
  intro now3 e3 raw3 hmode _
  rw [fetch_not_started _ now3 e3 raw3 (h2 hmode)]
  exact ⟨rfl, rfl, rfl⟩

/-- Witness for C6: a single-shot fetch over a temperature-corrupted frame
consumes the measurement and the next fetch fails with NotStarted. -/
theorem fetch_consumes_measurement_witness :
    (unit_enviii_temp_humidity_get
      (sht3x_t.mk sht3x_mode.single_shot sht3x_repeat.high true true 0)
      20000 ESP_OK [1, 2, 3, 4, 5, 6]).dev.meas_first = false ∧
    (unit_enviii_temp_humidity_get
      (unit_enviii_temp_humidity_get
        (sht3x_t.mk sht3x_mode.single_shot sht3x_repeat.high true true 0)
        20000 ESP_OK [1, 2, 3, 4, 5, 6]).dev
      30000 ESP_OK [1, 2, 3, 4, 5, 6]).err = ESP_ERR_INVALID_STATE :=
  ⟨(fetch_consumes_measurement _ 20000 [1, 2, 3, 4, 5, 6] rfl (by decide)).1,
    ((fetch_consumes_measurement _ 20000 [1, 2, 3, 4, 5, 6] rfl
        (by decide)).2.2 30000 ESP_OK [1, 2, 3, 4, 5, 6] rfl (by decide)).1⟩

/-- Claim C7: unit_enviii_duration_get returns ESP_OK and leaves the
session untouched for every repeatability and every session state, and
writes 15 for High, 6 for Medium and 4 for Low through its out-parameter. -/
theorem duration_get_table : ∀ (rep : sht3x_repeat) (dev : sht3x_t),
    (unit_enviii_duration_get rep dev).1 = ESP_OK ∧
    (unit_enviii_duration_get rep dev).2.2 = dev ∧
    (unit_enviii_duration_get sht3x_repeat.high dev).2.1 = 15 ∧
    (unit_enviii_duration_get sht3x_repeat.medium dev).2.1 = 6 ∧
    (unit_enviii_duration_get sht3x_repeat.low dev).2.1 = 4 :=
  fun _ _ => ⟨rfl, rfl, rfl, rfl, rfl⟩

/-- Claim C8, counterexample: when the transport cannot be opened
(sht3x_init_desc yields ESP_ERR_INVALID_ARG), unit_enviii_init does not
return that error: it aborts inside ESP_ERROR_CHECK. -/
theorem init_returns_error_counterexample :
    (unit_enviii_init ESP_ERR_INVALID_ARG ESP_OK).isReturn = false ∧
    unit_enviii_init ESP_ERR_INVALID_ARG ESP_OK =
      InitOutcome.abort ESP_ERR_INVALID_ARG := by
  decide

/-- Claim C8, amended: when the transport cannot be opened or the sensor
does not acknowledge its init command, unit_enviii_init aborts (inside
ESP_ERROR_CHECK) carrying that esp_err_t instead of returning it; on
success it returns ESP_OK and writes the duration-table value for the
configured repeatability (15, High) through its out-parameter. -/
theorem init_abort_behaviour (d i : Nat) :
    (d ≠ ESP_OK → unit_enviii_init d i = InitOutcome.abort d) ∧
    (d = ESP_OK → i ≠ ESP_OK → unit_enviii_init d i = InitOutcome.abort i) ∧
    (d = ESP_OK → i = ESP_OK →
      unit_enviii_init d i = InitOutcome.ret ESP_OK
        (sht3x_get_measurement_duration REPEATABILITY_MODE) zeroed_dev ∧
      sht3x_get_measurement_duration REPEATABILITY_MODE = 15) := by
  refine ⟨?_, ?_, ?_⟩
  · intro hd
    unfold unit_enviii_init
    rw [if_pos hd]
  · intro hd hi
    unfold unit_enviii_init
    rw [if_neg (fun h => h hd), if_pos hi]
  · intro hd hi
    unfold unit_enviii_init
    rw [if_neg (fun h => h hd), if_neg (fun h => h hi)]
    exact ⟨rfl, rfl⟩

/-- Witness for the amended C8 on the success path. -/
theorem init_abort_behaviour_witness :
    unit_enviii_init ESP_OK ESP_OK = InitOutcome.ret ESP_OK
      (sht3x_get_measurement_duration REPEATABILITY_MODE) zeroed_dev ∧
    sht3x_get_measurement_duration REPEATABILITY_MODE = 15 :=
  (init_abort_behaviour ESP_OK ESP_OK).2.2 rfl rfl

/-- Claim C9: the command word handed to the transport by the fetch is
shuffle of SHT3X_FETCH_DATA_CMD = 0xE000, namely 0x00E0 (whose low-order,
first-transmitted byte is 0xE0), and shuffle exchanges the two bytes of
every 16-bit value. -/
theorem fetch_cmd_byte_swap :
    shuffle SHT3X_FETCH_DATA_CMD = 0xE0 ∧
    (∀ v : Nat, v < 2 ^ 16 → shuffle v = 256 * (v % 256) + v / 256) ∧
    (∀ (dev : sht3x_t) (now e : Nat) (raw : List Nat),
      dev.meas_started = true → is_measuring dev now = false →
      (unit_enviii_temp_humidity_get dev now e raw).cmdSent = some 0xE0) := by
  refine ⟨by decide, shuffle_swap, ?_⟩
  intro dev now e raw hs hm
  rw [fetch_cmd_sent dev now e raw hs hm]
  decide

/-- Witness for C9 at the fetch command constant itself. -/
theorem fetch_cmd_byte_swap_witness :
    0xE000 < 2 ^ 16 ∧
    shuffle 0xE000 = 256 * (0xE000 % 256) + 0xE000 / 256 :=
  ⟨by decide, fetch_cmd_byte_swap.2.1 0xE000 (by decide)⟩

/-- Claim C10: the QMP6988 stubs unit_enviii_pressure_get and
unit_enviii_altitude_get (and the helper _unit_enviii_qmp6988_get) return
ESP_OK on every session state, perform no bus transaction, leave the
session unchanged and write nothing through their out-parameters. -/
theorem qmp6988_stubs_trivial : ∀ dev : sht3x_t,
    unit_enviii_pressure_get dev =
      { err := ESP_OK, dev := dev, busTransactions := 0, wroteOutput := false } ∧
    unit_enviii_altitude_get dev =
      { err := ESP_OK, dev := dev, busTransactions := 0, wroteOutput := false } ∧
    _unit_enviii_qmp6988_get dev =
      { err := ESP_OK, dev := dev, busTransactions := 0, wroteOutput := false } :=
  fun _ => ⟨rfl, rfl, rfl⟩
